import Mathlib

/-
Verification of the thermodynamic Record-of-the-Day selection engine
(`discogs/utils/thermodynamic_recommendation.py`) and its caller, the
dashboard view (`discogs/views.py`), against the natural-language
specification. The Python code is shallowly embedded: Django rows become
structures over ℚ / Int, ORM queries become pure functions on an explicit
database value, and the external numeric library calls (numpy `sqrt`, `exp`,
random draws, sklearn fitting) become oracle parameters so that every
definition stays computable.
-/

namespace ReactGo

/-! ## Numeric helpers mirroring the numpy operations used by the source -/

/-- `np.clip(x, lo, hi)`: values below `lo` become `lo`, above `hi` become `hi`. -/
def clip (x lo hi : ℚ) : ℚ := max lo (min x hi)

/-- `np.min` over a list (0 on the empty list, which the source never hits). -/
def qMin : List ℚ → ℚ
  | [] => 0
  | x :: xs => xs.foldl min x

/-- `np.max` over a list (0 on the empty list). -/
def qMax : List ℚ → ℚ
  | [] => 0
  | x :: xs => xs.foldl max x

/-- `np.mean` of a list of rationals. -/
def listMean (xs : List ℚ) : ℚ := xs.sum / (xs.length : ℚ)

/-- `np.var`: population variance. -/
def listVar (xs : List ℚ) : ℚ :=
  ((xs.map (fun x => (x - listMean xs) ^ 2)).sum) / (xs.length : ℚ)

/-- Squared euclidean distance between two feature vectors
(`sklearn.metrics.pairwise.euclidean_distances` is the square root of this). -/
def sqDist (v w : List ℚ) : ℚ := ((v.zip w).map (fun p => (p.1 - p.2) ^ 2)).sum

/-- Insert into a list that is sorted descending by `key`. -/
def insertDescBy {α β : Type} [LinearOrder β] (key : α → β) (a : α) : List α → List α
  | [] => [a]
  | b :: bs => if key b < key a then a :: b :: bs else b :: insertDescBy key a bs

/-- Sort a list descending by `key`; embeds Django `order_by('-field')`. -/
def sortDescBy {α β : Type} [LinearOrder β] (key : α → β) : List α → List α
  | [] => []
  | a :: as => insertDescBy key a (sortDescBy key as)

/-! ## Data model (discogs/models.py) -/

/-- `discogs.models.Record`: the catalog metadata fields the selection engine
reads. `genres` always holds a JSON array of tag strings (the scraper stores
`record_data['genres']`, a list, and the field default is `list`). -/
structure Rec where
  artist : String
  title : String
  genres : List String
  wants : Int
  haves : Int
  year : Option Int
  added : Int
deriving DecidableEq, Repr

/-- `discogs.models.Listing`. `score` is a decimal, embedded as ℚ. -/
structure Listing where
  id : Nat
  record : Rec
  record_price : ℚ
  media_condition : String
  score : ℚ
  kept : Bool
  evaluated : Bool
deriving DecidableEq, Repr

/-- `discogs.models.RecordOfTheDay`: the persisted daily selection with its
breakdown fields and the aggregated feedback averages. `date` is unique. -/
structure RecordOfTheDay where
  date : Int
  listingId : Nat
  model_score : ℚ
  entropy_measure : ℚ
  system_temperature : ℚ
  utility_term : ℚ
  entropy_term : ℚ
  free_energy : ℚ
  selection_probability : ℚ
  total_candidates : Nat
  cluster_count : Nat
  selection_method : String
  average_desirability : ℚ
  average_novelty : ℚ
deriving DecidableEq, Repr

/-- The database state the engine and the dashboard view read and write. -/
structure DB where
  listings : List Listing
  rotds : List RecordOfTheDay
deriving DecidableEq, Repr

/-! ## ORM query embeddings -/

/-- `Listing.objects.filter(score__gt=0.5).order_by('-score')[:max_candidates]`
(thermodynamic_recommendation.py lines 280-284). -/
def eligibleListings (db : DB) (max_candidates : Nat) : List Listing :=
  (sortDescBy (fun l => l.score) (db.listings.filter (fun l => (1 : ℚ)/2 < l.score))).take
    max_candidates

/-- `Listing.objects.filter(record__added__gte=recent_cutoff)
.order_by('-record__added')[:100]` (lines 291-296). -/
def recentListings (db : DB) (cutoff : Int) : List Listing :=
  (sortDescBy (fun l => l.record.added) (db.listings.filter
    (fun l => cutoff ≤ l.record.added))).take 100

/-- `RecordOfTheDay.objects.all()[:10]` (line 207); the model's Meta ordering
is `['-date']`. -/
def pastRecords (db : DB) : List RecordOfTheDay :=
  (sortDescBy (fun r => r.date) db.rotds).take 10

/-- Look a listing up by primary key. -/
def listingById (db : DB) (i : Nat) : Option Listing :=
  db.listings.find? (fun l => l.id == i)

/-- Semantics of `.filter(listing__record__genres__overlap=v)` (line 170).
`genres` is a `JSONField`, which has no registered `overlap` lookup; Django's
`JSONField.get_transform` therefore resolves `overlap` as a *key transform*,
so the filter compares `genres -> 'overlap'` with `v` under `exact`.
Extracting an object key from a JSON array yields SQL NULL, which no `exact`
comparison matches, and `genres` always holds an array (see `Rec.genres`),
so the filter matches no row. -/
def overlapKeyTransformMatch (_stored : List String) (_v : List String) : Bool :=
  false

/-- `RecordOfTheDay.objects.filter(listing__record__genres__overlap=g)[:5]`
(line 170), under the key-transform semantics of `overlapKeyTransformMatch`. -/
def similarRecords (db : DB) (g : List String) : List RecordOfTheDay :=
  ((sortDescBy (fun r => r.date) db.rotds).filter (fun r =>
    match listingById db r.listingId with
    | some l => overlapKeyTransformMatch l.record.genres g
    | none => false)).take 5

/-- `Listing.objects.filter(score__gt=0).order_by('-score').first()`
(line 361 and views.py lines 259, 264). -/
def fallbackListing (db : DB) : Option Listing :=
  (sortDescBy (fun l => l.score) (db.listings.filter (fun l => (0 : ℚ) < l.score))).head?

/-- `RecordOfTheDay.objects.get(date=today)` (views.py line 216) as a lookup:
`none` is the `DoesNotExist` case. -/
def rotdForDate (db : DB) (d : Int) : Option RecordOfTheDay :=
  db.rotds.find? (fun r => r.date == d)

/-- `RecordOfTheDay.objects.create(...)` (views.py line 244). -/
def createROTD (db : DB) (r : RecordOfTheDay) : DB :=
  { db with rotds := db.rotds ++ [r] }

/-- `RecordOfTheDay.objects.filter(date=today).delete()` (views.py line 218). -/
def deleteROTD (db : DB) (d : Int) : DB :=
  { db with rotds := db.rotds.filter (fun r => r.date ≠ d) }

/-! ## Selector state and external-library oracles -/

/-- Result of the sklearn fit pipeline inside `_update_cluster_model`
(vectorizer/scaler fit, optional PCA, `KMeans.fit`): the fitted cluster
centroids together with the fitted feature transform that
`_calculate_entropy_measure` later applies to a single listing. -/
structure FitResult where
  centroids : List (List ℚ)
  transform : Listing → List ℚ

/-- The mutable fields of `ThermodynamicRecordSelector` the claims depend on.
`transform` is the currently fitted feature pipeline (initially arbitrary;
only consulted once centroids exist). -/
structure SelectorState where
  recent_listings_cache : Option (List Listing)
  cluster_centroids : Option (List (List ℚ))
  transform : Listing → List ℚ

/-- A numpy double as produced by `np.exp`: either a finite value or the
overflow result `inf`. -/
inductive FloatE where
  | fin (x : ℚ)
  | inf
deriving DecidableEq, Repr

/-- External nondeterminism and library numerics, passed in as oracles:
`sqrt` is `np.sqrt` (used via `np.std`); `fexp` is `np.exp` with its overflow
behaviour; `draw` is the categorical `np.random.choice(n, p=probs)` draw,
returning an index for a given probability vector; `udraw` is the uniform
`np.random.choice(ids)` index draw given the number of candidates;
`uniformEntropy i` is the value of `np.random.uniform(0.3, 0.7)` for the
`i`-th candidate; `fit` is the sklearn fit pipeline, `none` modelling an
exception inside it (caught by `_update_cluster_model`); `fault`, when set,
models an exception raised by some stage of `select_record_of_the_day`'s
body (caught by its outer handler, lines 357-364). -/
structure Oracles where
  sqrt : ℚ → ℚ
  fexp : ℚ → FloatE
  draw : List ℚ → Nat
  udraw : Nat → Nat
  uniformEntropy : Nat → ℚ
  fit : List Listing → Option FitResult
  fault : Option String

/-- Python `==` on two lists of Django model instances compares element-wise
by primary key; used by the cache check on line 104. -/
def sameWindow (cache : Option (List Listing)) (w : List Listing) : Bool :=
  match cache with
  | some c => c.map (fun l => l.id) == w.map (fun l => l.id)
  | none => false

/-- `_update_cluster_model` (lines 98-129): refuses windows of fewer than 5
listings; skips recomputation when the cached window is identical; otherwise
records the window in the cache *before* fitting, then installs the fitted
centroids and transform, returning `false` when the fit raises. -/
def update_cluster_model (fit : List Listing → Option FitResult)
    (st : SelectorState) (recent_listings : List Listing) :
    Bool × SelectorState :=
  if recent_listings.length < 5 then (false, st)
  else if sameWindow st.recent_listings_cache recent_listings then (true, st)
  else
    let st1 := { st with recent_listings_cache := some recent_listings }
    match fit recent_listings with
    | none => (false, st1)
    | some r =>
      (true, { st1 with cluster_centroids := some r.centroids,
                        transform := r.transform })

/-- `_calculate_entropy_measure` (lines 131-178). With no centroids the
random baseline `np.random.uniform(0.3, 0.7)` (oracle value `rng`) is
returned. Otherwise: minimum euclidean distance from the listing's feature
vector to a centroid, normalised by the maximum pairwise centroid distance
(with the `1e-6` guard, or the `0.5` default when that maximum is not
positive), clipped to `[0.1, 0.9]`, then scaled by
`1 + 0.3 * avg_novelty` where `avg_novelty` averages `average_novelty` over
the `similarRecords` query (lines 170-172). -/
def calculate_entropy_measure (sqrt : ℚ → ℚ) (rng : ℚ) (db : DB)
    (st : SelectorState) (listing : Listing) : ℚ :=
  match st.cluster_centroids with
  | none => rng
  | some cs =>
    let v := st.transform listing
    let min_distance := qMin (cs.map (fun c => sqrt (sqDist v c)))
    let max_possible_distance :=
      qMax (cs.flatMap (fun a => cs.map (fun b => sqrt (sqDist a b))))
    let e0 :=
      if 0 < max_possible_distance then
        min_distance / (max_possible_distance + 1/1000000)
      else (1 : ℚ)/2
    let e1 := clip e0 (1/10) (9/10)
    let sims := similarRecords db listing.record.genres
    let avg_novelty :=
      ((sims.map (fun r => r.average_novelty)).sum) / ((max 1 sims.length : Nat) : ℚ)
    e1 * (1 + 3/10 * avg_novelty)

/-- `_calculate_system_temperature` (lines 180-219): exploration boost from
the unevaluated fraction and the capped coefficient of variation of positive
scores (`0.5` when no score is positive), scaled by
`1 + 0.2 * sum(average_desirability over the last 10 selections)` — note the
source line 208 takes a *sum*, not an average — and clipped to `[0.1, 1.0]`. -/
def calculate_system_temperature (sqrt : ℚ → ℚ) (db : DB)
    (eligible_listings : List Listing) : ℚ :=
  let total_listings := eligible_listings.length
  let unevaluated_count :=
    (eligible_listings.filter (fun l => !l.evaluated)).length
  let unevaluated_frac := (unevaluated_count : ℚ) / ((max total_listings 1 : Nat) : ℚ)
  let scores := (eligible_listings.filter (fun l => (0 : ℚ) < l.score)).map
    (fun l => l.score)
  let uncertainty_factor :=
    if scores.isEmpty then (1 : ℚ)/2
    else min (sqrt (listVar scores) / (listMean scores + 1/1000000)) 1
  let base_temperature := (1 : ℚ)/2
  let exploration_boost := 3/10 * unevaluated_frac + 1/5 * uncertainty_factor
  let avg_desirability :=
    ((pastRecords db).map (fun r => r.average_desirability)).sum
  clip ((base_temperature + exploration_boost) * (1 + 1/5 * avg_desirability))
    (1/10) 1

/-- `_calculate_free_energy` (lines 221-241): returns
`(free_energy, utility, entropy_term)`. -/
def calculate_free_energy (listing : Listing) (entropy_measure temperature : ℚ) :
    ℚ × ℚ × ℚ :=
  let utility := if (0 : ℚ) < listing.score then -listing.score else -1
  let entropy_term := temperature * entropy_measure
  (utility - entropy_term, utility, entropy_term)

/-- Collect the Boltzmann weights when they are all finite; `none` when some
weight overflowed to `inf` (in which case the normalised probabilities
contain NaN and `np.random.choice` raises). -/
def finWeights : List FloatE → Option (List ℚ)
  | [] => some []
  | FloatE.fin x :: ws => (finWeights ws).map (fun t => x :: t)
  | FloatE.inf :: _ => none

/-- The `except` body of `_boltzmann_sampling` (lines 265-268):
`np.random.choice(listing_ids)` raises `ValueError` on an empty list (and
`1.0 / len(listing_ids)` would divide by zero), so the fallback itself
raises when there are no candidates; otherwise a uniform index draw. -/
def uniformFallback (udraw : Nat → Nat) (listing_ids : List Nat) :
    Except String (Nat × ℚ) :=
  if listing_ids.isEmpty then Except.error "a cannot be empty"
  else
    Except.ok
      (listing_ids.getD (udraw listing_ids.length % listing_ids.length) 0,
        1 / (listing_ids.length : ℚ))

/-- `_boltzmann_sampling` (lines 243-268). Weights are `exp(-F/T)`; the
categorical draw succeeds when every weight is finite and nonnegative, their
sum is positive, and the parallel lists are nonempty and of equal length;
any other case makes `np.random.choice` raise (NaN probabilities from
overflow or an all-zero sum, an empty population, or a length mismatch) and
the handler falls back to a uniform draw — which itself raises on an empty
candidate list. -/
def boltzmann_sampling (fexp : ℚ → FloatE) (draw : List ℚ → Nat)
    (udraw : Nat → Nat) (free_energies : List ℚ) (listing_ids : List Nat)
    (temperature : ℚ) : Except String (Nat × ℚ) :=
  let boltzmann_weights := free_energies.map (fun fe => fexp (-fe / temperature))
  match finWeights boltzmann_weights with
  | none => uniformFallback udraw listing_ids
  | some ws =>
    if ws.all (fun w => 0 ≤ w) ∧ 0 < ws.sum ∧
        free_energies.length = listing_ids.length ∧ ¬ listing_ids.isEmpty then
      let probabilities := ws.map (fun w => w / ws.sum)
      let selected_idx := draw probabilities % listing_ids.length
      Except.ok (listing_ids.getD selected_idx 0, probabilities.getD selected_idx 0)
    else uniformFallback udraw listing_ids

/-! ## The selection orchestrator -/

/-- The Python breakdown dict: each key is optional since the dict carries
different keys on the success, empty-pool, fallback and error paths. -/
structure Breakdown where
  model_score : Option ℚ := none
  entropy_measure : Option ℚ := none
  system_temperature : Option ℚ := none
  utility_term : Option ℚ := none
  entropy_term : Option ℚ := none
  free_energy : Option ℚ := none
  selection_probability : Option ℚ := none
  total_candidates : Option Nat := none
  cluster_count : Option Nat := none
  selection_method : Option String := none
  error : Option String := none
deriving DecidableEq, Repr

/-- The empty dict `{}`. -/
def Breakdown.emptyDict : Breakdown := {}

/-- Python truthiness of the breakdown dict: `{}` is falsy, a dict with any
key set is truthy. -/
def Breakdown.isEmptyDict (b : Breakdown) : Bool :=
  b.model_score.isNone && b.entropy_measure.isNone &&
  b.system_temperature.isNone && b.utility_term.isNone &&
  b.entropy_term.isNone && b.free_energy.isNone &&
  b.selection_probability.isNone && b.total_candidates.isNone &&
  b.cluster_count.isNone && b.selection_method.isNone && b.error.isNone

/-- The `try` body of `select_record_of_the_day` (lines 275-355). A set
`fault` oracle models an exception raised by some stage of the body (sklearn,
numpy, the database driver), which the outer handler catches. On an empty
eligible pool the body returns `(None, {})`; otherwise it refits the cluster
model on the recent window (falling back to the eligible pool when the
window is empty), computes the shared temperature, the per-candidate entropy
and free energy, samples, and assembles the audit breakdown. The sampler's
only error (empty candidate list) is unreachable here and is rethrown. -/
def selectBody (o : Oracles) (db : DB) (st : SelectorState) (cutoff : Int)
    (max_candidates : Nat) :
    Except String ((Option Listing × Breakdown) × SelectorState) :=
  match o.fault with
  | some e => Except.error e
  | none =>
    let eligible_listings := eligibleListings db max_candidates
    if hne : eligible_listings.isEmpty then
      Except.ok ((none, Breakdown.emptyDict), st)
    else
      let recent0 := recentListings db cutoff
      let recent_listings := if recent0.isEmpty then eligible_listings else recent0
      let st1 := (update_cluster_model o.fit st recent_listings).2
      let temperature := calculate_system_temperature o.sqrt db eligible_listings
      let entropy_measures := eligible_listings.mapIdx (fun i l =>
        calculate_entropy_measure o.sqrt (o.uniformEntropy i) db st1 l)
      let triples := eligible_listings.mapIdx (fun i l =>
        calculate_free_energy l
          (calculate_entropy_measure o.sqrt (o.uniformEntropy i) db st1 l)
          temperature)
      let free_energies := triples.map (fun t => t.1)
      let utility_terms := triples.map (fun t => t.2.1)
      let entropy_terms := triples.map (fun t => t.2.2)
      let listing_ids := eligible_listings.map (fun l => l.id)
      match boltzmann_sampling o.fexp o.draw o.udraw free_energies listing_ids
          temperature with
      | Except.error e => Except.error e
      | Except.ok (selected_id, selection_probability) =>
        let selected_listing :=
          ((eligible_listings.find? (fun l => l.id == selected_id)).getD
            (eligible_listings.head (by simpa [List.isEmpty_iff] using hne)))
        let selected_idx := listing_ids.indexOf selected_id
        Except.ok ((some selected_listing,
          { model_score := some selected_listing.score,
            entropy_measure := some (entropy_measures.getD selected_idx 0),
            system_temperature := some temperature,
            utility_term := some (utility_terms.getD selected_idx 0),
            entropy_term := some (entropy_terms.getD selected_idx 0),
            free_energy := some (free_energies.getD selected_idx 0),
            selection_probability := some selection_probability,
            total_candidates := some eligible_listings.length,
            cluster_count := some (match st1.cluster_centroids with
              | some cs => cs.length
              | none => 0),
            selection_method := some "thermodynamic_boltzmann" }), st1)

/-- `select_record_of_the_day` (lines 270-364): the body above, with the
outer exception handler returning the highest-scored positively-scored
listing (possibly `None`) and an error breakdown tagged `'fallback'`. The
handler leaves the selector state as it was before the call (the only
reachable throw is the injected fault at the start of the body). -/
def select_record_of_the_day (o : Oracles) (db : DB) (st : SelectorState)
    (cutoff : Int) (max_candidates : Nat) :
    (Option Listing × Breakdown) × SelectorState :=
  match selectBody o db st cutoff max_candidates with
  | Except.ok r => r
  | Except.error e =>
    ((fallbackListing db,
      { error := some e, selection_method := some "fallback" }), st)

/-! ## The dashboard view (views.py lines 207-265) -/

/-- The `RecordOfTheDay` row the view creates from a selector breakdown
(views.py lines 244-257), using `.get(key, default)` for every field. The
feedback fields take their model defaults. -/
def mkRotd (today : Int) (listingId : Nat) (b : Breakdown) : RecordOfTheDay :=
  { date := today
    listingId := listingId
    model_score := b.model_score.getD 0
    entropy_measure := b.entropy_measure.getD 0
    system_temperature := b.system_temperature.getD (1/2)
    utility_term := b.utility_term.getD 0
    entropy_term := b.entropy_term.getD 0
    free_energy := b.free_energy.getD 0
    selection_probability := b.selection_probability.getD 0
    total_candidates := b.total_candidates.getD 0
    cluster_count := b.cluster_count.getD 0
    selection_method := b.selection_method.getD "thermodynamic_boltzmann"
    average_desirability := 0
    average_novelty := 0 }

/-- The breakdown dict the view rebuilds from a persisted row
(views.py lines 222-233). -/
def persistedBreakdown (r : RecordOfTheDay) : Breakdown :=
  { model_score := some r.model_score
    entropy_measure := some r.entropy_measure
    system_temperature := some r.system_temperature
    utility_term := some r.utility_term
    entropy_term := some r.entropy_term
    free_energy := some r.free_energy
    selection_probability := some r.selection_probability
    total_candidates := some r.total_candidates
    cluster_count := some r.cluster_count
    selection_method := some r.selection_method }

/-- What `DashboardAPIView.get` exposes about the daily selection. -/
structure DashboardResult where
  record_of_the_day : Option Listing
  breakdown : Breakdown
deriving DecidableEq, Repr

/-- The Record-of-the-Day portion of `DashboardAPIView.get`
(views.py lines 207-265), as a transition on the database. `sel` is the
outcome a fresh `select_record_of_the_day` run would produce (sampling is
stochastic, so it is passed in). Without `force_refresh`, a persisted row
for today is returned verbatim; otherwise (`DoesNotExist`) the pipeline runs
and its result is persisted when both the listing and the breakdown are
truthy, else the highest-scored listing is returned unpersisted. With
`force_refresh`, today's row is deleted and the pipeline result is returned
— the code never reaches the `DoesNotExist` handler on this path, so
nothing is persisted. -/
def dashboardGet (sel : Option Listing × Breakdown) (today : Int)
    (force_refresh : Bool) (db : DB) : DashboardResult × DB :=
  if force_refresh then
    let db1 := deleteROTD db today
    ({ record_of_the_day := sel.1, breakdown := sel.2 }, db1)
  else
    match rotdForDate db today with
    | some obj =>
      ({ record_of_the_day := listingById db obj.listingId,
         breakdown := persistedBreakdown obj }, db)
    | none =>
      match sel.1, sel.2.isEmptyDict with
      | some l, false =>
        ({ record_of_the_day := some l, breakdown := sel.2 },
          createROTD db (mkRotd today l.id sel.2))
      | _, _ =>
        ({ record_of_the_day := fallbackListing db,
           breakdown := { selection_method := some "fallback_highest_score" } },
          db)

/-- The invariant "at most one persisted selection per calendar date". -/
def UniqueDates (db : DB) : Prop :=
  db.rotds.Pairwise (fun a b => a.date ≠ b.date)

/-! ## Helper lemmas -/

theorem le_clip {x lo hi : ℚ} : lo ≤ clip x lo hi := le_max_left lo (min x hi)

theorem clip_le {x lo hi : ℚ} (h : lo ≤ hi) : clip x lo hi ≤ hi :=
  max_le h (min_le_right x hi)

/-- The `genres__overlap` filter (a JSONField key transform, see
`overlapKeyTransformMatch`) matches no row. -/
theorem similarRecords_eq_nil (db : DB) (g : List String) :
    similarRecords db g = [] := by
  unfold similarRecords
  rw [List.filter_eq_nil_iff.mpr, List.take_nil]
  intro r _
  cases listingById db r.listingId <;> simp [overlapKeyTransformMatch]

/-- Whatever the cluster state and oracle values, the entropy measure of any
listing lies in `[0.1, 0.9]` provided the randomized no-centroid default was
drawn from `[0.3, 0.7]`: the feedback multiplier on line 172 is always `1`
because the `similarRecords` query matches nothing. -/
theorem calculate_entropy_measure_range (s : ℚ → ℚ) (r : ℚ) (db : DB)
    (st : SelectorState) (l : Listing) (h1 : 3/10 ≤ r) (h2 : r ≤ 7/10) :
    1/10 ≤ calculate_entropy_measure s r db st l ∧
      calculate_entropy_measure s r db st l ≤ 9/10 := by
  unfold calculate_entropy_measure
  cases hc : st.cluster_centroids with
  | none => constructor <;> linarith
  | some cs =>
    simp only [similarRecords_eq_nil, List.map_nil, List.sum_nil, List.length_nil]
    norm_num
    constructor
    · exact le_clip
    · exact clip_le (by norm_num)

/-- The system temperature is clipped to `[0.1, 1.0]` on line 211. -/
theorem calculate_system_temperature_range (s : ℚ → ℚ) (db : DB)
    (el : List Listing) :
    1/10 ≤ calculate_system_temperature s db el ∧
      calculate_system_temperature s db el ≤ 1 := by
  unfold calculate_system_temperature
  exact ⟨le_clip, clip_le (by norm_num)⟩

/-- The uniform fallback succeeds exactly on a nonempty candidate list, and
then returns a member of the list together with the uniform probability. -/
theorem uniformFallback_ok (udraw : Nat → Nat) (ids : List Nat)
    (h : ¬ ids.isEmpty) :
    ∃ sid, uniformFallback udraw ids =
      Except.ok (sid, 1 / (ids.length : ℚ)) ∧ sid ∈ ids := by
  unfold uniformFallback
  rw [if_neg (by simpa using h)]
  have hlen : 0 < ids.length := by
    cases ids with
    | nil => simp at h
    | cons a t => simp
  have hmod : udraw ids.length % ids.length < ids.length := Nat.mod_lt _ hlen
  exact ⟨_, rfl, by rw [List.getD_eq_getElem _ _ hmod]; exact List.getElem_mem hmod⟩

/-- On a nonempty candidate list the sampler never raises, and the selected
identifier is one of the candidates. -/
theorem boltzmann_sampling_ok (fexp : ℚ → FloatE) (draw : List ℚ → Nat)
    (udraw : Nat → Nat) (fes : List ℚ) (ids : List Nat) (T : ℚ)
    (h : ¬ ids.isEmpty) :
    ∃ sid pr, boltzmann_sampling fexp draw udraw fes ids T =
      Except.ok (sid, pr) ∧ sid ∈ ids := by
  have hlen : 0 < ids.length := by
    cases ids with
    | nil => simp at h
    | cons a t => simp
  simp only [boltzmann_sampling]
  split
  · obtain ⟨sid, heq, hmem⟩ := uniformFallback_ok udraw ids h
    exact ⟨sid, _, heq, hmem⟩
  · split
    · refine ⟨_, _, rfl, ?_⟩
      rw [List.getD_eq_getElem _ _ (Nat.mod_lt _ hlen)]
      exact List.getElem_mem (Nat.mod_lt _ hlen)
    · obtain ⟨sid, heq, hmem⟩ := uniformFallback_ok udraw ids h
      exact ⟨sid, _, heq, hmem⟩

theorem insertDescBy_ne_nil {α β : Type} [LinearOrder β] (key : α → β) (a : α)
    (l : List α) : insertDescBy key a l ≠ [] := by
  cases l with
  | nil => simp [insertDescBy]
  | cons b bs =>
    unfold insertDescBy
    split <;> simp

theorem sortDescBy_eq_nil {α β : Type} [LinearOrder β] (key : α → β)
    (l : List α) : sortDescBy key l = [] ↔ l = [] := by
  cases l with
  | nil => simp [sortDescBy]
  | cons a as =>
    simp only [sortDescBy]
    exact ⟨fun h => absurd h (insertDescBy_ne_nil key a _), fun h => by simp at h⟩

theorem mem_insertDescBy {α β : Type} [LinearOrder β] (key : α → β) (a x : α)
    (l : List α) : x ∈ insertDescBy key a l ↔ x = a ∨ x ∈ l := by
  induction l with
  | nil => simp [insertDescBy]
  | cons b bs ih =>
    unfold insertDescBy
    split
    · simp [List.mem_cons]
    · simp only [List.mem_cons, ih]
      tauto

theorem mem_sortDescBy {α β : Type} [LinearOrder β] (key : α → β) (x : α)
    (l : List α) : x ∈ sortDescBy key l ↔ x ∈ l := by
  induction l with
  | nil => simp [sortDescBy]
  | cons a as ih =>
    simp only [sortDescBy, mem_insertDescBy, List.mem_cons, ih]

theorem insertDescBy_sorted {α β : Type} [LinearOrder β] (key : α → β) (a : α)
    (l : List α) (h : l.Sorted (fun x y => key y ≤ key x)) :
    (insertDescBy key a l).Sorted (fun x y => key y ≤ key x) := by
  induction l with
  | nil => simp [insertDescBy]
  | cons b bs ih =>
    rw [List.sorted_cons] at h
    unfold insertDescBy
    split
    · rename_i hlt
      rw [List.sorted_cons]
      refine ⟨?_, List.sorted_cons.mpr h⟩
      intro c hc
      rcases List.mem_cons.mp hc with rfl | hc
      · exact le_of_lt hlt
      · exact le_trans (h.1 c hc) (le_of_lt hlt)
    · rename_i hnlt
      rw [List.sorted_cons]
      refine ⟨?_, ih h.2⟩
      intro c hc
      rcases (mem_insertDescBy key a c bs).mp hc with rfl | hc
      · exact not_lt.mp hnlt
      · exact h.1 c hc

theorem sortDescBy_sorted {α β : Type} [LinearOrder β] (key : α → β)
    (l : List α) : (sortDescBy key l).Sorted (fun x y => key y ≤ key x) := by
  induction l with
  | nil => simp [sortDescBy]
  | cons a as ih => exact insertDescBy_sorted key a _ ih

/-- The error-path fallback query returns the positively-scored listing with
the greatest score (Django's `order_by('-score').first()`). -/
theorem fallbackListing_max (db : DB) (l' : Listing)
    (h : fallbackListing db = some l') :
    (0 : ℚ) < l'.score ∧
      ∀ l ∈ db.listings, (0 : ℚ) < l.score → l.score ≤ l'.score := by
  unfold fallbackListing at h
  cases hs : sortDescBy (fun l => l.score)
      (db.listings.filter (fun l => decide ((0 : ℚ) < l.score))) with
  | nil => rw [hs] at h; cases h
  | cons hd tl =>
    rw [hs] at h
    simp only [List.head?_cons, Option.some.injEq] at h
    subst h
    constructor
    · have hmem0 : hd ∈ db.listings.filter (fun l => decide ((0 : ℚ) < l.score)) := by
        rw [← mem_sortDescBy (fun l => l.score), hs]
        exact List.mem_cons_self _ _
      simpa using List.of_mem_filter hmem0
    · intro l hl hpos
      have hmem : l ∈ sortDescBy (fun l => l.score)
          (db.listings.filter (fun l => decide ((0 : ℚ) < l.score))) := by
        rw [mem_sortDescBy]
        exact List.mem_filter.mpr ⟨hl, by simpa using hpos⟩
      rw [hs] at hmem
      rcases List.mem_cons.mp hmem with rfl | hmem
      · exact le_refl _
      · have hsorted := sortDescBy_sorted (fun l => l.score)
          (db.listings.filter (fun l => decide ((0 : ℚ) < l.score)))
        rw [hs, List.sorted_cons] at hsorted
        exact hsorted.1 l hmem

/-- The error-path fallback query returns nothing exactly when no listing has
a positive score. -/
theorem fallbackListing_eq_none_iff (db : DB) :
    fallbackListing db = none ↔ ∀ l ∈ db.listings, ¬ ((0 : ℚ) < l.score) := by
  unfold fallbackListing
  rw [List.head?_eq_none_iff, sortDescBy_eq_nil, List.filter_eq_nil_iff]
  simp

/-- Inversion for the uniform fallback: a successful draw is a member of the
candidate list. -/
theorem uniformFallback_mem (udraw : Nat → Nat) (ids : List Nat) (sid : Nat)
    (pr : ℚ) (h : uniformFallback udraw ids = Except.ok (sid, pr)) :
    sid ∈ ids := by
  unfold uniformFallback at h
  split at h
  · simp at h
  · rename_i hne
    have hlen : 0 < ids.length := by
      cases ids with
      | nil => simp at hne
      | cons a t => simp
    rw [Except.ok.injEq, Prod.mk.injEq] at h
    obtain ⟨h1, h2⟩ := h
    subst h1
    rw [List.getD_eq_getElem _ _ (Nat.mod_lt _ hlen)]
    exact List.getElem_mem (Nat.mod_lt _ hlen)

/-- Inversion for the sampler: a successfully drawn identifier is one of the
candidates. -/
theorem boltzmann_sampling_mem (fexp : ℚ → FloatE) (draw : List ℚ → Nat)
    (udraw : Nat → Nat) (fes : List ℚ) (ids : List Nat) (T : ℚ) (sid : Nat)
    (pr : ℚ)
    (h : boltzmann_sampling fexp draw udraw fes ids T = Except.ok (sid, pr)) :
    sid ∈ ids := by
  simp only [boltzmann_sampling] at h
  split at h
  · exact uniformFallback_mem udraw ids sid pr h
  · split at h
    · rename_i hcond
      have hne : ¬ ids.isEmpty = true := hcond.2.2.2
      have hlen : 0 < ids.length := by
        cases ids with
        | nil => simp at hne
        | cons a t => simp
      rw [Except.ok.injEq, Prod.mk.injEq] at h
      obtain ⟨h1, h2⟩ := h
      subst h1
      rw [List.getD_eq_getElem _ _ (Nat.mod_lt _ hlen)]
      exact List.getElem_mem (Nat.mod_lt _ hlen)
    · exact uniformFallback_mem udraw ids sid pr h

/-- With no injected fault and a nonempty eligible pool, the body of
`select_record_of_the_day` always succeeds with a selected listing. -/
theorem selectBody_ok_some (o : Oracles) (db : DB) (st : SelectorState)
    (cutoff : Int) (mc : Nat) (hf : o.fault = none)
    (hne : ¬ (eligibleListings db mc).isEmpty = true) :
    ∃ l b st2, selectBody o db st cutoff mc = Except.ok ((some l, b), st2) := by
  simp only [selectBody, hf]
  rw [dif_neg hne]
  split
  · rename_i e heq
    obtain ⟨sid, pr, hsamp, _⟩ :=
      boltzmann_sampling_ok o.fexp o.draw o.udraw _ _ _
        (show ¬ ((eligibleListings db mc).map (fun l => l.id)).isEmpty = true by
          simpa [List.isEmpty_iff] using hne)
    rw [heq] at hsamp
    cases hsamp
  · exact ⟨_, _, _, rfl⟩

/-- With no injected fault and a nonempty eligible pool, the body of
`select_record_of_the_day` succeeds with a listing and a breakdown whose
entropy measure lies in `[0.1, 0.9]` and whose temperature lies in
`[0.1, 1.0]`, tagged with the thermodynamic method and no error. -/
theorem selectBody_ok_char (o : Oracles) (db : DB) (st : SelectorState)
    (cutoff : Int) (mc : Nat) (hf : o.fault = none)
    (hne : ¬ (eligibleListings db mc).isEmpty = true)
    (hrng : ∀ i, 3/10 ≤ o.uniformEntropy i ∧ o.uniformEntropy i ≤ 7/10) :
    ∃ l b st2, selectBody o db st cutoff mc = Except.ok ((some l, b), st2) ∧
      b.error = none ∧ b.selection_method = some "thermodynamic_boltzmann" ∧
      (∃ e, b.entropy_measure = some e ∧ 1/10 ≤ e ∧ e ≤ 9/10) ∧
      (∃ T, b.system_temperature = some T ∧ 1/10 ≤ T ∧ T ≤ 1) := by
  simp only [selectBody, hf]
  rw [dif_neg hne]
  split
  · rename_i e heq
    obtain ⟨sid, pr, hsamp, _⟩ :=
      boltzmann_sampling_ok o.fexp o.draw o.udraw _ _ _
        (show ¬ ((eligibleListings db mc).map (fun l => l.id)).isEmpty = true by
          simpa [List.isEmpty_iff] using hne)
    rw [heq] at hsamp
    cases hsamp
  · rename_i sid pr heq
    have hmem : sid ∈ (eligibleListings db mc).map (fun l => l.id) :=
      boltzmann_sampling_mem _ _ _ _ _ _ _ _ heq
    have hidx2 : ((eligibleListings db mc).map (fun l => l.id)).indexOf sid <
        (eligibleListings db mc).length := by
      simpa using List.indexOf_lt_length.mpr hmem
    refine ⟨_, _, _, rfl, rfl, rfl, ⟨_, rfl, ?_, ?_⟩, ⟨_, rfl, ?_, ?_⟩⟩
    · rw [List.getD_eq_getElem _ _ (by simpa [List.length_mapIdx] using hidx2),
        List.getElem_mapIdx]
      exact (calculate_entropy_measure_range _ _ _ _ _ (hrng _).1 (hrng _).2).1
    · rw [List.getD_eq_getElem _ _ (by simpa [List.length_mapIdx] using hidx2),
        List.getElem_mapIdx]
      exact (calculate_entropy_measure_range _ _ _ _ _ (hrng _).1 (hrng _).2).2
    · exact (calculate_system_temperature_range o.sqrt db _).1
    · exact (calculate_system_temperature_range o.sqrt db _).2

/-! ## Concrete fixtures used by witnesses and counterexamples -/

/-- A catalog record fixture. -/
def exRec : Rec :=
  { artist := "a", title := "t", genres := ["Rock"], wants := 10, haves := 5,
    year := some 1990, added := 0 }

/-- A single eligible listing fixture (score 1 > 0.5). -/
def exListing : Listing :=
  { id := 1, record := exRec, record_price := 20, media_condition := "VG",
    score := 1, kept := false, evaluated := true }

/-- A database holding just the one listing and no persisted selections. -/
def exDB : DB := { listings := [exListing], rotds := [] }

/-- A freshly constructed selector (no cache, no centroids). -/
def exState : SelectorState :=
  { recent_listings_cache := none, cluster_centroids := none,
    transform := fun _ => [] }

/-- Deterministic, fault-free oracle values. -/
def exOracles : Oracles :=
  { sqrt := fun _ => 0, fexp := fun _ => FloatE.fin 1, draw := fun _ => 0,
    udraw := fun _ => 0, uniformEntropy := fun _ => 1/2,
    fit := fun _ => none, fault := none }

/-! ## Claim theorems -/

/-- C1: for every selection round that succeeds (a listing is returned and
the breakdown carries no error), the breakdown's `entropy_measure` lies in
`[0.1, 0.9]` and its `system_temperature` lies in `[0.1, 1.0]`, for every
database (hence every candidate pool and accumulated feedback vote), every
cluster state and all oracle values — the no-centroid entropy default being
drawn from `[0.3, 0.7]` per `np.random.uniform(0.3, 0.7)`. -/
theorem C1_selection_round_ranges (o : Oracles) (db : DB) (st : SelectorState)
    (cutoff : Int) (mc : Nat) (l : Listing) (b : Breakdown)
    (hrng : ∀ i, 3/10 ≤ o.uniformEntropy i ∧ o.uniformEntropy i ≤ 7/10)
    (hsel : (select_record_of_the_day o db st cutoff mc).1 = (some l, b))
    (hok : b.error = none) :
    (∃ e, b.entropy_measure = some e ∧ 1/10 ≤ e ∧ e ≤ 9/10) ∧
    (∃ T, b.system_temperature = some T ∧ 1/10 ≤ T ∧ T ≤ 1) := by
  cases hf : o.fault with
  | some e =>
    have hbody : selectBody o db st cutoff mc = Except.error e := by
      simp [selectBody, hf]
    unfold select_record_of_the_day at hsel
    rw [hbody] at hsel
    simp only [Prod.mk.injEq] at hsel
    rw [← hsel.2] at hok
    simp at hok
  | none =>
    by_cases hne : (eligibleListings db mc).isEmpty
    · have hbody : selectBody o db st cutoff mc =
          Except.ok ((none, Breakdown.emptyDict), st) := by
        simp [selectBody, hf, hne]
      unfold select_record_of_the_day at hsel
      rw [hbody] at hsel
      simp at hsel
    · obtain ⟨l', b', st2, hbody, _, _, hent, htemp⟩ :=
        selectBody_ok_char o db st cutoff mc hf hne hrng
      unfold select_record_of_the_day at hsel
      rw [hbody] at hsel
      simp only [Prod.mk.injEq, Option.some.injEq] at hsel
      rw [← hsel.2]
      exact ⟨hent, htemp⟩

/-- The breakdown produced by the fixture run used in `C1_witness`. -/
def C1exB : Breakdown :=
  { model_score := some 1, entropy_measure := some (1/2),
    system_temperature := some (1/2), utility_term := some (-1),
    entropy_term := some (1/4), free_energy := some (-5/4),
    selection_probability := some 1, total_candidates := some 1,
    cluster_count := some 0,
    selection_method := some "thermodynamic_boltzmann", error := none }

/-- Witness for C1 on a concrete one-listing database. -/
theorem C1_witness :
    (∃ e, C1exB.entropy_measure = some e ∧ 1/10 ≤ e ∧ e ≤ 9/10) ∧
    (∃ T, C1exB.system_temperature = some T ∧ 1/10 ≤ T ∧ T ≤ 1) :=
  C1_selection_round_ranges exOracles exDB exState 0 50 exListing C1exB
    (fun _ => by norm_num [exOracles])
    (by norm_num [select_record_of_the_day, selectBody, exOracles, exDB,
      exState, exListing, exRec, eligibleListings, recentListings, pastRecords,
      sortDescBy, insertDescBy, update_cluster_model, sameWindow,
      calculate_system_temperature, listMean, listVar, clip,
      calculate_entropy_measure, calculate_free_energy, boltzmann_sampling,
      finWeights, uniformFallback, C1exB])
    rfl

/-- C2: `select_record_of_the_day` is total (embedded as a total function
whose only failure inputs are the injected stage faults, all caught by its
handler): on an empty eligible pool it returns `(none, {})`; when a pipeline
stage raises it returns the single highest-scored listing with positive
score together with a breakdown carrying the error string and selection
method `'fallback'`; and it returns `(none, breakdown-with-error)` only when
no positively-scored listing exists. -/
theorem C2_never_raises_fallback (o : Oracles) (db : DB) (st : SelectorState)
    (cutoff : Int) (mc : Nat) :
    (o.fault = none → eligibleListings db mc = [] →
      (select_record_of_the_day o db st cutoff mc).1 =
        (none, Breakdown.emptyDict)) ∧
    (∀ e, o.fault = some e →
      (select_record_of_the_day o db st cutoff mc).1 =
        (fallbackListing db,
          { error := some e, selection_method := some "fallback" })) ∧
    (∀ l', fallbackListing db = some l' → (0 : ℚ) < l'.score ∧
      ∀ l ∈ db.listings, (0 : ℚ) < l.score → l.score ≤ l'.score) ∧
    (∀ b, (select_record_of_the_day o db st cutoff mc).1 = (none, b) →
      b.error ≠ none → ∀ l ∈ db.listings, ¬ ((0 : ℚ) < l.score)) := by
  refine ⟨?_, ?_, fallbackListing_max db, ?_⟩
  · intro hf he
    have hbody : selectBody o db st cutoff mc =
        Except.ok ((none, Breakdown.emptyDict), st) := by
      simp [selectBody, hf, he]
    unfold select_record_of_the_day
    rw [hbody]
  · intro e hf
    have hbody : selectBody o db st cutoff mc = Except.error e := by
      simp [selectBody, hf]
    unfold select_record_of_the_day
    rw [hbody]
  · intro b hres herr
    cases hf : o.fault with
    | some e =>
      have hbody : selectBody o db st cutoff mc = Except.error e := by
        simp [selectBody, hf]
      unfold select_record_of_the_day at hres
      rw [hbody] at hres
      simp only [Prod.mk.injEq] at hres
      exact (fallbackListing_eq_none_iff db).mp hres.1
    | none =>
      by_cases hne : (eligibleListings db mc).isEmpty
      · have hbody : selectBody o db st cutoff mc =
            Except.ok ((none, Breakdown.emptyDict), st) := by
          simp [selectBody, hf, hne]
        unfold select_record_of_the_day at hres
        rw [hbody] at hres
        simp only [Prod.mk.injEq] at hres
        rw [← hres.2] at herr
        exact absurd rfl herr
      · obtain ⟨l', b', st2, hbody⟩ :=
          selectBody_ok_some o db st cutoff mc hf hne
        unfold select_record_of_the_day at hres
        rw [hbody] at hres
        simp at hres

/-- A database with no listings at all, for the C2 witness. -/
def C2exDB : DB := { listings := [], rotds := [] }

/-- Witness for C2: on an empty catalog with no fault the selector returns
`(none, {})`. -/
theorem C2_witness :
    (select_record_of_the_day exOracles C2exDB exState 0 50).1 =
      (none, Breakdown.emptyDict) :=
  (C2_never_raises_fallback exOracles C2exDB exState 0 50).1 rfl
    (by norm_num [eligibleListings, C2exDB, sortDescBy])

/-- C3: for every listing with quality score `s`, entropy measure `e` and
temperature `T > 0` with `e ∈ [0.1, 0.9]`, the free-energy evaluator returns
exactly `(utility - T*e, utility, T*e)` with `utility = -s` when `s > 0` and
`-1.0` otherwise, and `free_energy = utility - T*e` holds within `1e-5`
(exactly, in fact: the embedding computes in ℚ). -/
theorem C3_free_energy (l : Listing) (e T : ℚ) (hT : 0 < T)
    (he1 : 1/10 ≤ e) (he2 : e ≤ 9/10) :
    calculate_free_energy l e T =
      ((if (0 : ℚ) < l.score then -l.score else -1) - T * e,
        (if (0 : ℚ) < l.score then -l.score else -1), T * e) ∧
    |(calculate_free_energy l e T).1 -
        ((calculate_free_energy l e T).2.1 - T * e)| ≤ 1/100000 := by
  unfold calculate_free_energy
  refine ⟨rfl, ?_⟩
  simp

/-- Witness for C3 at `s = 1`, `e = 1/2`, `T = 1/2`. -/
theorem C3_witness :
    calculate_free_energy exListing (1/2) (1/2) =
      ((if (0 : ℚ) < exListing.score then -exListing.score else -1) -
          1/2 * (1/2),
        (if (0 : ℚ) < exListing.score then -exListing.score else -1),
        1/2 * (1/2)) ∧
    |(calculate_free_energy exListing (1/2) (1/2)).1 -
        ((calculate_free_energy exListing (1/2) (1/2)).2.1 - 1/2 * (1/2))| ≤
      1/100000 :=
  C3_free_energy exListing (1/2) (1/2) (by norm_num) (by norm_num) (by norm_num)

/-- The system temperature exactly as claim C4 words it: the uncertainty
factor is the raw coefficient of variation of quality scores among scored
candidates and `0` when no candidate has a positive score, and the feedback
term is the *average* desirability over the bounded last-10 window. -/
def system_temperature_claimed (sqrt : ℚ → ℚ) (db : DB)
    (eligible_listings : List Listing) : ℚ :=
  let unevaluated_frac :=
    ((eligible_listings.filter (fun l => !l.evaluated)).length : ℚ) /
      ((max eligible_listings.length 1 : Nat) : ℚ)
  let scores := (eligible_listings.filter (fun l => (0 : ℚ) < l.score)).map
    (fun l => l.score)
  let uncertainty_factor :=
    if scores.isEmpty then (0 : ℚ) else sqrt (listVar scores) / listMean scores
  let avg_desirability :=
    ((pastRecords db).map (fun r => r.average_desirability)).sum /
      ((max 1 (pastRecords db).length : Nat) : ℚ)
  clip ((1/2 + 3/10 * unevaluated_frac + 1/5 * uncertainty_factor) *
    (1 + 1/5 * avg_desirability)) (1/10) 1

/-- The C4 formula as the code actually computes it: the uncertainty factor
is the coefficient of variation with the `1e-6` guard capped at `1`, and
`0.5` (not `0`) when no candidate has a positive score; the feedback term is
the *sum* (not the average) of `average_desirability` over the last-10
window. -/
def system_temperature_amended (sqrt : ℚ → ℚ) (db : DB)
    (eligible_listings : List Listing) : ℚ :=
  let unevaluated_frac :=
    ((eligible_listings.filter (fun l => !l.evaluated)).length : ℚ) /
      ((max eligible_listings.length 1 : Nat) : ℚ)
  let scores := (eligible_listings.filter (fun l => (0 : ℚ) < l.score)).map
    (fun l => l.score)
  let uncertainty_factor :=
    if scores.isEmpty then (1 : ℚ)/2
    else min (sqrt (listVar scores) / (listMean scores + 1/1000000)) 1
  let sum_desirability :=
    ((pastRecords db).map (fun r => r.average_desirability)).sum
  clip ((1/2 + 3/10 * unevaluated_frac + 1/5 * uncertainty_factor) *
    (1 + 1/5 * sum_desirability)) (1/10) 1

/-- A listing whose score is not positive, for the C4 counterexample. -/
def C4exListing : Listing :=
  { id := 2, record := exRec, record_price := 10, media_condition := "VG",
    score := 0, kept := false, evaluated := true }

/-- Counterexample to C4 as claimed: on a pool whose single candidate has no
positive score, the code's temperature is `0.6` (the no-score default
uncertainty factor is `0.5`) while the claimed formula gives `0.5` (default
`0`). -/
theorem C4_counterexample :
    calculate_system_temperature exOracles.sqrt exDB [C4exListing] = 3/5 ∧
    system_temperature_claimed exOracles.sqrt exDB [C4exListing] = 1/2 ∧
    (3/5 : ℚ) ≠ 1/2 := by
  refine ⟨?_, ?_, by norm_num⟩ <;>
    norm_num [calculate_system_temperature, system_temperature_claimed,
      exOracles, exDB, C4exListing, pastRecords, sortDescBy, clip, listMean,
      listVar]

/-- C4 amended: for every pool the system temperature equals
`(0.5 + 0.3*unevaluated_fraction + 0.2*uncertainty_factor) *
(1 + 0.2*sum_desirability)` clipped to `[0.1, 1.0]`, where the uncertainty
factor is `min(cv, 1)` with the `1e-6` guard (and `0.5` when no candidate
has a positive score) and `sum_desirability` sums `average_desirability`
over the last-10 window of past selections. -/
theorem C4_amended_temperature (sqrt : ℚ → ℚ) (db : DB)
    (eligible_listings : List Listing) :
    calculate_system_temperature sqrt db eligible_listings =
      system_temperature_amended sqrt db eligible_listings := by
  unfold calculate_system_temperature system_temperature_amended
  ring_nf

theorem sum_map_div (l : List ℚ) (s : ℚ) :
    (l.map (fun w => w / s)).sum = l.sum / s := by
  induction l with
  | nil => simp
  | cons a t ih =>
    simp only [List.map_cons, List.sum_cons, ih]
    ring

/-- Counterexample to C7 as claimed: on empty input the sampler does not
fall back to a uniform random choice — the fallback itself raises
(`np.random.choice` of an empty list is a `ValueError`, and
`1.0/len(listing_ids)` a `ZeroDivisionError`), surfacing as an error. -/
theorem C7_counterexample :
    boltzmann_sampling exOracles.fexp exOracles.draw exOracles.udraw [] [] 1 =
      Except.error "a cannot be empty" := by
  norm_num [boltzmann_sampling, finWeights, uniformFallback, exOracles]

/-- C7 amended: (a) when every Boltzmann weight `exp(-F/T)` is finite and
nonnegative with positive sum and the parallel nonempty lists agree in
length, the sampler returns the identifier drawn from the distribution of
the normalised weights together with that identifier's own probability —
the probabilities sum to `1` and each one is proportional to its weight
(`p_i * sum = w_i`); (b) on overflow (some weight `inf`, hence NaN
probabilities) with a nonempty candidate list it falls back to a uniform
draw with probability `1/n`; (c) on an empty candidate list it raises
instead of falling back. -/
theorem C7_amended_sampler (fexp : ℚ → FloatE) (draw : List ℚ → Nat)
    (udraw : Nat → Nat) (fes : List ℚ) (ids : List Nat) (T : ℚ) :
    (∀ ws, finWeights (fes.map (fun fe => fexp (-fe / T))) = some ws →
      (∀ w ∈ ws, (0 : ℚ) ≤ w) → 0 < ws.sum → fes.length = ids.length →
      ids ≠ [] →
      (ws.map (fun w => w / ws.sum)).sum = 1 ∧
      (∀ i, i < ws.length →
        (ws.map (fun w => w / ws.sum)).getD i 0 * ws.sum = ws.getD i 0) ∧
      boltzmann_sampling fexp draw udraw fes ids T =
        Except.ok
          (ids.getD (draw (ws.map (fun w => w / ws.sum)) % ids.length) 0,
            (ws.map (fun w => w / ws.sum)).getD
              (draw (ws.map (fun w => w / ws.sum)) % ids.length) 0)) ∧
    (finWeights (fes.map (fun fe => fexp (-fe / T))) = none → ids ≠ [] →
      boltzmann_sampling fexp draw udraw fes ids T =
        Except.ok (ids.getD (udraw ids.length % ids.length) 0,
          1 / (ids.length : ℚ))) ∧
    (ids = [] → ∃ msg,
      boltzmann_sampling fexp draw udraw fes ids T = Except.error msg) := by
  refine ⟨?_, ?_, ?_⟩
  · intro ws hws hnn hsum hlen hne
    refine ⟨?_, ?_, ?_⟩
    · rw [sum_map_div, div_self (ne_of_gt hsum)]
    · intro i hi
      have hi' : i < (ws.map (fun w => w / ws.sum)).length := by simpa using hi
      rw [List.getD_eq_getElem _ _ hi', List.getD_eq_getElem _ _ hi,
        List.getElem_map]
      exact div_mul_cancel₀ _ (ne_of_gt hsum)
    · simp only [boltzmann_sampling, hws]
      rw [if_pos]
      refine ⟨?_, hsum, hlen, by simpa [List.isEmpty_iff] using hne⟩
      rw [List.all_eq_true]
      intro w hw
      simpa using hnn w hw
  · intro hnone hne
    simp only [boltzmann_sampling, hnone]
    unfold uniformFallback
    rw [if_neg (by simpa [List.isEmpty_iff] using hne)]
  · intro h
    subst h
    refine ⟨"a cannot be empty", ?_⟩
    simp only [boltzmann_sampling]
    split
    · simp [uniformFallback]
    · split
      · rename_i hcond
        simp at hcond
      · simp [uniformFallback]

/-- Witness for C7 on one finite weight: `exp` constantly `1`, free energies
`[0]`, identifiers `[7]`, temperature `1` — the draw picks index `0` and the
sampler returns identifier `7` with probability `1`. -/
theorem C7_witness :
    boltzmann_sampling exOracles.fexp exOracles.draw exOracles.udraw [0] [7] 1 =
      Except.ok (7, 1) := by
  have h := (C7_amended_sampler exOracles.fexp exOracles.draw exOracles.udraw
    [0] [7] 1).1 [1]
    (by norm_num [finWeights, exOracles])
    (by intro w hw; simp at hw; simp [hw])
    (by norm_num) (by norm_num) (by norm_num)
  have h2 := h.2.2
  simpa [exOracles] using h2

/-- C8: a refit window of fewer than 5 listings makes
`_update_cluster_model` return failure with the selector state — hence the
previously fitted centroids, possibly none — left untouched; and with no
centroids, the entropy measure for any candidate is exactly the randomized
default `np.random.uniform(0.3, 0.7)`, which lies in `[0.3, 0.7]`. -/
theorem C8_refit_failure_and_default (fit : List Listing → Option FitResult)
    (st : SelectorState) (w : List Listing) (hw : w.length < 5) :
    update_cluster_model fit st w = (false, st) ∧
    ∀ (s : ℚ → ℚ) (r : ℚ) (db : DB) (l : Listing),
      st.cluster_centroids = none → 3/10 ≤ r → r ≤ 7/10 →
      calculate_entropy_measure s r db st l = r ∧
      3/10 ≤ calculate_entropy_measure s r db st l ∧
      calculate_entropy_measure s r db st l ≤ 7/10 := by
  constructor
  · unfold update_cluster_model
    rw [if_pos hw]
  · intro s r db l hc h1 h2
    simp only [calculate_entropy_measure, hc]
    exact ⟨trivial, h1, h2⟩

/-- Witness for C8: the empty refit window fails and leaves the fresh state
(no centroids) unchanged, and the entropy default is returned verbatim. -/
theorem C8_witness :
    update_cluster_model exOracles.fit exState [] = (false, exState) ∧
    calculate_entropy_measure exOracles.sqrt (1/2) exDB exState exListing =
      1/2 := by
  have h := C8_refit_failure_and_default exOracles.fit exState [] (by norm_num)
  exact ⟨h.1, (h.2 exOracles.sqrt (1/2) exDB exListing rfl (by norm_num)
    (by norm_num)).1⟩

/-- Counterexample to C9 as claimed: with an identical 4-listing window the
second refit call returns failure (`False`), not success — windows smaller
than 5 are rejected before the cache is ever consulted or written. -/
theorem C9_counterexample :
    (update_cluster_model exOracles.fit
      ((update_cluster_model exOracles.fit exState
        (List.replicate 4 exListing)).2)
      (List.replicate 4 exListing)).1 = false := by
  simp [update_cluster_model]

/-- C9 amended: a second refit call with the identical window performs no
recomputation — its result does not depend on the fit pipeline at all
(`fit2` is arbitrary), the selector state (hence the centroids object) is
returned unchanged, and the call reports success exactly when the window
has at least 5 listings (the cache set by the first call is then hit) and
failure otherwise. -/
theorem C9_amended_refit_skip (fit fit2 : List Listing → Option FitResult)
    (st : SelectorState) (w : List Listing) (b1 : Bool) (st1 : SelectorState)
    (h1 : update_cluster_model fit st w = (b1, st1)) :
    update_cluster_model fit2 st1 w = (decide (5 ≤ w.length), st1) := by
  by_cases hlt : w.length < 5
  · unfold update_cluster_model at h1 ⊢
    rw [if_pos hlt] at h1 ⊢
    rw [Prod.mk.injEq] at h1
    rw [← h1.2]
    simp [show ¬ (5 ≤ w.length) by omega]
  · unfold update_cluster_model at h1 ⊢
    rw [if_neg hlt] at h1 ⊢
    split at h1
    · rename_i hcache
      rw [Prod.mk.injEq] at h1
      rw [← h1.2]
      rw [if_pos hcache]
      simp [show 5 ≤ w.length by omega]
    · split at h1
      · rw [Prod.mk.injEq] at h1
        rw [← h1.2]
        rw [if_pos (by simp [sameWindow])]
        simp [show 5 ≤ w.length by omega]
      · rw [Prod.mk.injEq] at h1
        rw [← h1.2]
        rw [if_pos (by simp [sameWindow])]
        simp [show 5 ≤ w.length by omega]

/-- Witness for C9: after a first refit on a 5-listing window (whose fit
raises, so only the cache is written), the second call with any fit
pipeline reports success and returns the state unchanged. -/
theorem C9_witness :
    update_cluster_model exOracles.fit
      { recent_listings_cache := some (List.replicate 5 exListing),
        cluster_centroids := none, transform := fun _ => [] }
      (List.replicate 5 exListing) =
      (decide (5 ≤ (List.replicate 5 exListing).length),
        { recent_listings_cache := some (List.replicate 5 exListing),
          cluster_centroids := none, transform := fun _ => [] }) :=
  C9_amended_refit_skip exOracles.fit exOracles.fit exState
    (List.replicate 5 exListing) false
    { recent_listings_cache := some (List.replicate 5 exListing),
      cluster_centroids := none, transform := fun _ => [] }
    (by simp [update_cluster_model, sameWindow, exOracles, exState])

/-- A breakdown carrying every field the view persists and no error — the
shape `select_record_of_the_day` produces on its success path. -/
def Breakdown.complete (b : Breakdown) : Prop :=
  b.model_score.isSome = true ∧ b.entropy_measure.isSome = true ∧
  b.system_temperature.isSome = true ∧ b.utility_term.isSome = true ∧
  b.entropy_term.isSome = true ∧ b.free_energy.isSome = true ∧
  b.selection_probability.isSome = true ∧ b.total_candidates.isSome = true ∧
  b.cluster_count.isSome = true ∧ b.selection_method.isSome = true ∧
  b.error = none

/-- Persisting a complete breakdown and reading it back reproduces it
verbatim. -/
theorem persistedBreakdown_mkRotd (today : Int) (i : Nat) (b : Breakdown)
    (hb : b.complete) : persistedBreakdown (mkRotd today i b) = b := by
  obtain ⟨h1, h2, h3, h4, h5, h6, h7, h8, h9, h10, h11⟩ := hb
  rw [Option.isSome_iff_exists] at h1 h2 h3 h4 h5 h6 h7 h8 h9 h10
  obtain ⟨v1, h1⟩ := h1
  obtain ⟨v2, h2⟩ := h2
  obtain ⟨v3, h3⟩ := h3
  obtain ⟨v4, h4⟩ := h4
  obtain ⟨v5, h5⟩ := h5
  obtain ⟨v6, h6⟩ := h6
  obtain ⟨v7, h7⟩ := h7
  obtain ⟨v8, h8⟩ := h8
  obtain ⟨v9, h9⟩ := h9
  obtain ⟨v10, h10⟩ := h10
  rcases b with ⟨ms, em, stp, ut, et, fe, sp, tc, cc, sm, err⟩
  simp only at h1 h2 h3 h4 h5 h6 h7 h8 h9 h10 h11
  subst h1 h2 h3 h4 h5 h6 h7 h8 h9 h10 h11
  simp [persistedBreakdown, mkRotd]

/-- Reading today's row immediately after the view created it returns that
row. -/
theorem rotdForDate_createROTD (db : DB) (d : Int) (r : RecordOfTheDay)
    (h : rotdForDate db d = none) (hr : r.date = d) :
    rotdForDate (createROTD db r) d = some r := by
  unfold rotdForDate createROTD at *
  rw [List.find?_append, h]
  simp [List.find?_cons, hr]

/-- C5 amended: (i) every dashboard request preserves the invariant "at most
one persisted selection per date"; (ii) when a persisted selection exists, a
non-refresh read returns its listing and its breakdown verbatim and leaves
the database untouched — so any two such reads return identical results;
(iii) when no selection is persisted and the pipeline outcome carries a
listing and a nonempty breakdown, the first read persists it and returns it,
a second read returns the same winning listing together with the persisted
breakdown, and that persisted breakdown is identical to the first read's
breakdown whenever the latter was a complete success breakdown — the
identity can fail only when the first read persisted an error-fallback
breakdown (see the counterexample). -/
theorem C5_amended_single_selection (sel sel2 : Option Listing × Breakdown)
    (today : Int) (fr : Bool) (db : DB) :
    (UniqueDates db → UniqueDates (dashboardGet sel today fr db).2) ∧
    (∀ obj, rotdForDate db today = some obj →
      dashboardGet sel today false db =
        ({ record_of_the_day := listingById db obj.listingId,
           breakdown := persistedBreakdown obj }, db)) ∧
    (∀ l b, rotdForDate db today = none → sel = (some l, b) →
      b.isEmptyDict = false →
      dashboardGet sel today false db =
        ({ record_of_the_day := some l, breakdown := b },
          createROTD db (mkRotd today l.id b)) ∧
      (listingById db l.id = some l →
        (dashboardGet sel2 today false
          (createROTD db (mkRotd today l.id b))).1 =
          { record_of_the_day := some l,
            breakdown := persistedBreakdown (mkRotd today l.id b) }) ∧
      (Breakdown.complete b → persistedBreakdown (mkRotd today l.id b) = b)) := by
  refine ⟨?_, ?_, ?_⟩
  · intro hu
    unfold dashboardGet
    split
    · exact List.Pairwise.sublist (List.filter_sublist _) hu
    · split
      · exact hu
      · rename_i hnone
        split
        · rename_i l hb
          refine List.pairwise_append.mpr ⟨hu, by simp, ?_⟩
          intro a ha bb hbb
          simp only [List.mem_singleton] at hbb
          subst hbb
          have hane := List.find?_eq_none.mp hnone a ha
          simpa [mkRotd] using hane
        · exact hu
  · intro obj hobj
    simp [dashboardGet, hobj]
  · intro l b h0 hsel hbe
    subst hsel
    refine ⟨by simp [dashboardGet, h0, hbe], ?_, persistedBreakdown_mkRotd today l.id b⟩
    intro hres
    have hfind := rotdForDate_createROTD db today (mkRotd today l.id b) h0 rfl
    unfold dashboardGet
    rw [if_neg (show ¬(false = true) by simp)]
    simp only [hfind]
    show ({ record_of_the_day := listingById db l.id,
            breakdown := persistedBreakdown (mkRotd today l.id b) } :
        DashboardResult) =
      { record_of_the_day := some l,
        breakdown := persistedBreakdown (mkRotd today l.id b) }
    rw [hres]

/-- Oracles whose injected fault makes the pipeline take its error-fallback
path. -/
def C5exOracles : Oracles := { exOracles with fault := some "boom" }

/-- First dashboard read on a day with no persisted selection, where the
pipeline fails and yields the error-fallback outcome. -/
def C5read1 : DashboardResult × DB :=
  dashboardGet (select_record_of_the_day C5exOracles exDB exState 0 50).1 0
    false exDB

/-- Second dashboard read on the same day, after the first persisted the
error-fallback outcome. -/
def C5read2 : DashboardResult × DB :=
  dashboardGet (select_record_of_the_day C5exOracles exDB exState 0 50).1 0
    false C5read1.2

/-- Counterexample to C5 as claimed: two reads on the same date with no
refresh in between return the same winning listing but *different*
breakdowns — the first read's breakdown carries the error string and no
numeric fields, while the second read returns the persisted row's default
numeric fields and no error. -/
theorem C5_counterexample :
    C5read1.1.record_of_the_day = some exListing ∧
    C5read2.1.record_of_the_day = some exListing ∧
    C5read1.1.breakdown ≠ C5read2.1.breakdown := by
  refine ⟨?_, ?_, ?_⟩ <;>
    norm_num [C5read1, C5read2, C5exOracles, dashboardGet,
      select_record_of_the_day, selectBody, fallbackListing, exDB, exState,
      exListing, sortDescBy, insertDescBy, rotdForDate, createROTD, mkRotd,
      persistedBreakdown, listingById, Breakdown.isEmptyDict,
      Breakdown.emptyDict, exOracles]
  intro h
  exact absurd h (by simp)

/-- Witness for C5's amended theorem on the success path: the first read
persists and returns the complete breakdown, the second read returns the
same winner with the persisted breakdown, and the two breakdowns coincide. -/
theorem C5_witness :
    dashboardGet (some exListing, C1exB) 0 false exDB =
      ({ record_of_the_day := some exListing, breakdown := C1exB },
        createROTD exDB (mkRotd 0 exListing.id C1exB)) ∧
    (dashboardGet (some exListing, C1exB) 0 false
        (createROTD exDB (mkRotd 0 exListing.id C1exB))).1 =
      { record_of_the_day := some exListing,
        breakdown := persistedBreakdown (mkRotd 0 exListing.id C1exB) } ∧
    persistedBreakdown (mkRotd 0 exListing.id C1exB) = C1exB := by
  have h := (C5_amended_single_selection (some exListing, C1exB)
    (some exListing, C1exB) 0 false exDB).2.2 exListing C1exB
    (by norm_num [rotdForDate, exDB]) rfl
    (by norm_num [Breakdown.isEmptyDict, C1exB, Breakdown.emptyDict])
  exact ⟨h.1, h.2.1 (by norm_num [listingById, exDB, exListing]),
    h.2.2 (by norm_num [Breakdown.complete, C1exB])⟩

/-- A selection persisted for date 0, as the view creates it from a complete
breakdown. -/
def C6exRotd : RecordOfTheDay := mkRotd 0 exListing.id C1exB

/-- A database with one listing and the persisted selection for date 0. -/
def C6exDB : DB := { listings := [exListing], rotds := [C6exRotd] }

/-- C6 (code bug, evaluated at the failing input): a request with
`force_refresh=1` on a date with a persisted selection deletes that row and
returns a freshly sampled winner, but the pipeline run it triggers does
*not* recreate the persisted record — creation only happens in the
`DoesNotExist` handler, which the refresh path never reaches — so after the
request no selection is persisted for the date. -/
theorem C6_refresh_does_not_persist :
    rotdForDate C6exDB 0 = some C6exRotd ∧
    (dashboardGet (select_record_of_the_day exOracles C6exDB exState 0 50).1 0
        true C6exDB).1.record_of_the_day = some exListing ∧
    rotdForDate
      (dashboardGet (select_record_of_the_day exOracles C6exDB exState 0 50).1
        0 true C6exDB).2 0 = none := by
  refine ⟨?_, ?_, ?_⟩ <;>
    norm_num [dashboardGet, select_record_of_the_day, selectBody, exOracles,
      C6exDB, C6exRotd, exState, exListing, exRec, eligibleListings,
      recentListings, pastRecords, sortDescBy, insertDescBy,
      update_cluster_model, sameWindow, calculate_system_temperature,
      listMean, listVar, clip, calculate_entropy_measure,
      calculate_free_energy, boltzmann_sampling, finWeights, uniformFallback,
      rotdForDate, deleteROTD, mkRotd, C1exB]

/-- C10: the selection pipeline performs no database writes — in the
embedding `select_record_of_the_day` is a pure function of the database
snapshot (its ORM calls, lines 280-283, 292-295, 207 and 361, are all
reads) — and composing it with the dashboard view, the only row that can
change is today's persisted selection, created or deleted by the view
itself: the listings table is never modified, persisted selections for
other dates are untouched, and a non-refresh read that finds a persisted
selection changes nothing at all. -/
theorem C10_selector_writes_nothing (o : Oracles) (db : DB)
    (st : SelectorState) (cutoff : Int) (mc : Nat) (today : Int) (fr : Bool) :
    ((dashboardGet (select_record_of_the_day o db st cutoff mc).1 today fr
        db).2).listings = db.listings ∧
    (∀ r : RecordOfTheDay, r.date ≠ today →
      (r ∈ ((dashboardGet (select_record_of_the_day o db st cutoff mc).1 today
          fr db).2).rotds ↔ r ∈ db.rotds)) ∧
    (fr = false → ∀ obj, rotdForDate db today = some obj →
      (dashboardGet (select_record_of_the_day o db st cutoff mc).1 today fr
        db).2 = db) := by
  generalize (select_record_of_the_day o db st cutoff mc).1 = sel
  refine ⟨?_, ?_, ?_⟩
  · unfold dashboardGet
    split
    · rfl
    · split
      · rfl
      · split
        · rfl
        · rfl
  · intro r hr
    unfold dashboardGet
    split
    · simp [deleteROTD, List.mem_filter, hr]
    · split
      · exact Iff.rfl
      · split
        · rename_i l hb
          simp only [createROTD, List.mem_append, List.mem_singleton]
          constructor
          · rintro (h | h)
            · exact h
            · subst h
              exact absurd rfl hr
          · exact fun h => Or.inl h
        · exact Iff.rfl
  · intro hfr obj hobj
    subst hfr
    simp [dashboardGet, hobj]

/-- Witness for C10: on the concrete database with a persisted selection for
date 0, rows for other dates are untouched and the non-refresh read leaves
the database unchanged. -/
theorem C10_witness :
    (mkRotd 1 exListing.id C1exB ∈
        ((dashboardGet (select_record_of_the_day exOracles C6exDB exState 0
            50).1 0 false C6exDB).2).rotds ↔
      mkRotd 1 exListing.id C1exB ∈ C6exDB.rotds) ∧
    (dashboardGet (select_record_of_the_day exOracles C6exDB exState 0 50).1 0
      false C6exDB).2 = C6exDB := by
  have h := C10_selector_writes_nothing exOracles C6exDB exState 0 50 0 false
  refine ⟨h.2.1 _ (by norm_num [mkRotd]), h.2.2 rfl C6exRotd ?_⟩
  norm_num [rotdForDate, C6exDB, C6exRotd, mkRotd]

end ReactGo
